import Mathlib

/-!
Shallow embedding of the FiskEat client core: the flag eligibility gate and
flag propagation engine (`MenuPage`), the selection store with persistence
(`nutritionStorage.ts` and the persistence effects in `MenuPage` /
`NutritionCalculator`), the nutrition aggregator (`nutritionCalculator.ts`),
and the dietary/allergen filter engine (`matchesDietaryFilter`).

JavaScript strings are modelled as Lean `String`; `trim`/`toLowerCase` are
embedded as list-based functions (`jsTrim`, `jsToLower`) with the same
behaviour on the relevant inputs.  JavaScript numbers are modelled as `ℚ`.
Truthiness of optional strings (`x || y`) is embedded by `jsOrStr`, which
treats the empty string like an absent value, exactly as JavaScript does.
-/

/-- Embedding of JavaScript `String.prototype.toLowerCase` (per-character
lowercasing). -/
def jsToLower (s : String) : String :=
  ⟨s.data.map Char.toLower⟩

/-- Embedding of JavaScript `String.prototype.trim` (strip whitespace from
both ends). -/
def jsTrim (s : String) : String :=
  ⟨((s.data.dropWhile Char.isWhitespace).reverse.dropWhile Char.isWhitespace).reverse⟩

/-- JavaScript `a || b` for an optional string `a`: the empty string is falsy,
so it falls through to the default, exactly like `undefined`/`null`. -/
def jsOrStr : Option String → String → String
  | none, d => d
  | some s, d => if s = "" then d else s

/-- A nutrition field value: `string | number` in the source
(`Nutrition` in `MenuPage`). -/
inductive NutValue where
  | num (q : ℚ)
  | str (s : String)
deriving DecidableEq, Repr

/-- Record `Nutrition` from `MenuPage`: six `string | number` fields. -/
structure Nutrition where
  calories : NutValue
  protein : NutValue
  fat : NutValue
  carbohydrates : NutValue
  sugar : NutValue
  sodium : NutValue
deriving DecidableEq, Repr

/-- Structure `FoodItem` from `MenuPage`.  `isFlagged?: boolean` is optional in the
source, hence `Option Bool`. -/
structure FoodItem where
  id : String
  name : String
  description : String
  ingredients : String
  allergens : List String
  isVegan : Bool
  isVegetarian : Bool
  nutrition : Nutrition
  isFlagged : Option Bool
deriving DecidableEq, Repr

/-- Structure `Station` from `MenuPage`. -/
structure Station where
  name : String
  items : List FoodItem
deriving DecidableEq, Repr

/-- Structure `Meal` from `MenuPage`. -/
structure Meal where
  name : String
  stations : List Station
deriving DecidableEq, Repr

/-- Structure `MenuData` from `MenuPage`: `activeMeal?: string | null` is modelled as
`Option String` (with the empty string additionally falsy, see
`canFlagMeal`). -/
structure MenuData where
  date : String
  meals : List Meal
  activeMeal : Option String
deriving DecidableEq, Repr

/-- Predicate `isViewingToday` in `MenuPage`: equality of the two `yyyy-MM-dd`
formatted date strings. -/
def isViewingToday (navigatedDate today : String) : Bool :=
  navigatedDate == today

/-- Gate `canFlagMeal` from `MenuPage`:
`if (!menuData?.activeMeal || !isViewingToday) return false;
 return mealName.trim().toLowerCase() === menuData.activeMeal.trim().toLowerCase()`.
`!menuData?.activeMeal` is true when `menuData` is absent, `activeMeal` is
absent/null, or `activeMeal` is the empty string. -/
def canFlagMeal (menuData : Option MenuData) (viewingToday : Bool)
    (mealName : String) : Bool :=
  match menuData with
  | none => false
  | some md =>
    match md.activeMeal with
    | none => false
    | some am =>
      if am = "" || !viewingToday then false
      else jsToLower (jsTrim mealName) == jsToLower (jsTrim am)

/-- Dietary tag set (vegetarian / vegan flags) from `MenuPage`. -/
structure DietaryFilters where
  vegetarian : Bool
  vegan : Bool
deriving DecidableEq, Repr

/-- Size of the dietary tag set, `dietaryFilters.size`. -/
def DietaryFilters.size (df : DietaryFilters) : Nat :=
  (if df.vegetarian then 1 else 0) + (if df.vegan then 1 else 0)

/-- Predicate `matchesDietaryFilter` from `MenuPage`: allergen exclusion first (item
allergens trimmed, exact match against the exclusion set), then accept-all
when no dietary tags are active, else OR across active tags. -/
def matchesDietaryFilter (dietaryFilters : DietaryFilters)
    (allergenFilters : List String) (item : FoodItem) : Bool :=
  if allergenFilters.length > 0 &&
      allergenFilters.any (fun a => (item.allergens.map jsTrim).contains a) then
    false
  else if dietaryFilters.size == 0 then
    true
  else
    (dietaryFilters.vegetarian && item.isVegetarian) ||
      (dietaryFilters.vegan && item.isVegan)

/-- Characters kept by the cleaning regex `replace(/[^0-9.]/g, '')` in
`parseNutritionValue`: digits and the decimal point. -/
def keepChar (c : Char) : Bool :=
  c.isDigit || c == '.'

/-- Numeric value of a digit list (most significant first). -/
def digitsVal (l : List Char) : Nat :=
  l.foldl (fun n c => n * 10 + (c.toNat - '0'.toNat)) 0

/-- JavaScript `parseFloat` restricted to strings of digits and dots (the
image of the cleaning regex), split into integer part, fractional part and
fractional length: a leading run of digits, an optional dot and a second run
of digits; `none` models `NaN` (no digits consumed at all). -/
def parseFloatParts (l : List Char) : Option (Nat × Nat × Nat) :=
  let intPart := l.takeWhile Char.isDigit
  let rest := l.dropWhile Char.isDigit
  match rest with
  | '.' :: rest2 =>
    let fracPart := rest2.takeWhile Char.isDigit
    if intPart.isEmpty && fracPart.isEmpty then none
    else some (digitsVal intPart, digitsVal fracPart, fracPart.length)
  | _ =>
    if intPart.isEmpty then none else some (digitsVal intPart, 0, 0)

/-- The rational value of the parsed parts. -/
def partsToRat : Option (Nat × Nat × Nat) → Option ℚ
  | none => none
  | some (i, f, n) => some ((i : ℚ) + (f : ℚ) / (10 : ℚ) ^ n)

/-- JavaScript `parseFloat` on a cleaned digits-and-dots string. -/
def parseFloatCleaned (l : List Char) : Option ℚ :=
  partsToRat (parseFloatParts l)

/-- JavaScript `parseFloat(cleaned) || 0`: `NaN` is falsy and becomes `0`
(a parsed `0` stays `0`, so `Option.getD 0` is exact). -/
def jsNumOrZero (q : Option ℚ) : ℚ :=
  q.getD 0

/-- Parser `parseNutritionValue` from `nutritionCalculator.ts`: numbers as-is, the
literal `"N/A"` is zero, any other string is stripped to digits/dots and
parsed, defaulting to zero. -/
def parseNutritionValue : NutValue → ℚ
  | .num q => q
  | .str s =>
    if s = "N/A" then 0
    else jsNumOrZero (parseFloatCleaned (s.data.filter keepChar))

/-- Record `NutritionTotals` from `nutritionCalculator.ts`. -/
@[ext]
structure NutritionTotals where
  calories : ℚ
  protein : ℚ
  fat : ℚ
  carbohydrates : ℚ
  sugar : ℚ
  sodium : ℚ
deriving DecidableEq, Repr

/-- The reducer step of `calculateTotals`. -/
def totalsStep (totals : NutritionTotals) (item : FoodItem) : NutritionTotals :=
  { calories := totals.calories + parseNutritionValue item.nutrition.calories
    protein := totals.protein + parseNutritionValue item.nutrition.protein
    fat := totals.fat + parseNutritionValue item.nutrition.fat
    carbohydrates :=
      totals.carbohydrates + parseNutritionValue item.nutrition.carbohydrates
    sugar := totals.sugar + parseNutritionValue item.nutrition.sugar
    sodium := totals.sodium + parseNutritionValue item.nutrition.sodium }

/-- Aggregator `calculateTotals` from `nutritionCalculator.ts`: a `reduce` (left fold)
over the selected items starting from the all-zero record. -/
def calculateTotals (items : List FoodItem) : NutritionTotals :=
  items.foldl totalsStep ⟨0, 0, 0, 0, 0, 0⟩

/-! ### Selection store persistence

`localStorage` is modelled as the state of the single selections key
(`nutrition-selections`): `none` means the key is absent.  The storage
operations are from `nutritionStorage.ts`; the reaction that persists the
list on every change is the `useEffect` in `MenuPage` (save when non-empty,
else delete the key), preceded — when the calculator panel is open — by the
`useEffect` in `NutritionCalculator`, which re-saves the list (React runs
child effects before parent effects). -/

/-- Storage write `saveSelectedItems`: store the full list under the selections key. -/
def saveSelectedItems (items : List FoodItem) : Option (List FoodItem) :=
  some items

/-- Storage delete `clearSelections`: remove the selections key. -/
def clearSelections : Option (List FoodItem) :=
  none

/-- Storage read `loadSelectedItems`: the stored list when the key is present, else the
empty list. -/
def loadSelectedItems (storage : Option (List FoodItem)) : List FoodItem :=
  storage.getD []

/-- Handler `handleRemoveFromCalculator` in `MenuPage`: positional removal via
`prev.filter((_, i) => i !== index)`. -/
def handleRemoveFromCalculator (items : List FoodItem) (index : Nat) :
    List FoodItem :=
  (items.enum.filter (fun p => p.1 != index)).map Prod.snd

/-- Handler `handleClearCalculator` in `MenuPage`: the list becomes empty. -/
def handleClearCalculator : List FoodItem :=
  []

/-- The storage state after the selection list changes: the
`NutritionCalculator` effect re-saves when the panel is open, then the
`MenuPage` effect saves a non-empty list or deletes the key for an empty
one. -/
def selectionsChangedEffects (isCalculatorOpen : Bool)
    (items : List FoodItem) (storage : Option (List FoodItem)) :
    Option (List FoodItem) :=
  let _afterChild := if isCalculatorOpen then saveSelectedItems items else storage
  if items.length > 0 then saveSelectedItems items else clearSelections

/-! ### Flag propagation engine (`handleToggleFlag` in `MenuPage`) -/

/-- Feedback banner kind. -/
inductive FeedbackType where
  | success
  | error
deriving DecidableEq, Repr

/-- Banner payload held in `actionFeedback`. -/
structure ActionFeedback where
  type : FeedbackType
  message : String
deriving DecidableEq, Repr

/-- The component state touched by a flag toggle. -/
structure AppState where
  menuData : Option MenuData
  selectedItems : List FoodItem
  flaggingItemId : Option String
  actionFeedback : Option ActionFeedback
deriving DecidableEq, Repr

/-- Outcome of the collaborator call `POST /flag`: a success response with
an authoritative `isFlagged` and optional message, a non-success response
with an optional message, or a thrown transport error (for an axios error,
`err.response?.data?.message` and `err.message` feed the banner text). -/
inductive CollabOutcome where
  | ok (isFlagged : Bool) (message : Option String)
  | notOk (message : Option String)
  | transportError (isAxios : Bool) (dataMessage : Option String)
      (errMessage : String)
deriving DecidableEq, Repr

/-- Fallback failure banner text in `handleToggleFlag`. -/
def genericFlagFailMsg : String :=
  "Failed to update flag for this item."

/-- The ineligibility banner text: names `activeMeal` when truthy, else the
generic message (`menuData.activeMeal ? ... : ...`). -/
def ineligibleMessage (activeMeal : Option String) : String :=
  match activeMeal with
  | some am =>
    if am = "" then
      "Flagging is only available during the active meal period for today."
    else
      "Flagging is only available during the " ++ am ++ " period."
  | none => "Flagging is only available during the active meal period for today."

/-- Default success banner text:
`Item flagged for today.` / `Item unflagged for today.` -/
def defaultSuccessMsg (isFlagged : Bool) : String :=
  "Item " ++ (if isFlagged then "flagged" else "unflagged") ++ " for today."

/-- The per-item rewrite inside `setMenuData`:
`menuItem.id === item.id ? { ...menuItem, isFlagged } : menuItem`. -/
def rewriteMenuItem (targetId : String) (isFlagged : Bool)
    (menuItem : FoodItem) : FoodItem :=
  if menuItem.id == targetId then { menuItem with isFlagged := some isFlagged }
  else menuItem

/-- The per-station rewrite: `{ ...station, items: station.items.map(...) }`. -/
def rewriteStation (targetId : String) (isFlagged : Bool) (st : Station) :
    Station :=
  { st with items := st.items.map (rewriteMenuItem targetId isFlagged) }

/-- The per-meal rewrite: a meal whose name differs is returned as-is,
the matching meal has all its stations rewritten. -/
def rewriteMeal (mealName targetId : String) (isFlagged : Bool) (m : Meal) :
    Meal :=
  if m.name != mealName then m
  else { m with stations := m.stations.map (rewriteStation targetId isFlagged) }

/-- The snapshot rewrite on flag success: `{ ...prev, meals: prev.meals.map(...) }`. -/
def rewriteMenu (mealName targetId : String) (isFlagged : Bool)
    (md : MenuData) : MenuData :=
  { md with meals := md.meals.map (rewriteMeal mealName targetId isFlagged) }

/-- Result of a `handleToggleFlag` call: the final component state and
whether a request to the flag collaborator was sent. -/
structure ToggleResult where
  state : AppState
  requestSent : Bool
deriving DecidableEq, Repr

/-- Handler `handleToggleFlag` from `MenuPage`, as a state transition.  The in-flight
marker `flaggingItemId` is set to the item id before the request and cleared
in `finally`; the value recorded here is the state after the whole handler
has run.  The collaborator outcome is an explicit input. -/
def handleToggleFlag (viewingToday : Bool) (s : AppState) (mealName : String)
    (item : FoodItem) (outcome : CollabOutcome) : ToggleResult :=
  match s.menuData with
  | none => ⟨s, false⟩
  | some menu =>
    if !canFlagMeal (some menu) viewingToday mealName then
      ⟨{ s with
          actionFeedback := some ⟨.error, ineligibleMessage menu.activeMeal⟩ },
        false⟩
    else
      match outcome with
      | .ok isFlagged msg =>
        ⟨{ s with
            menuData := some (rewriteMenu mealName item.id isFlagged menu)
            selectedItems :=
              if isFlagged then
                s.selectedItems.filter (fun sel => !(sel.id == item.id))
              else s.selectedItems
            actionFeedback := some ⟨.success, jsOrStr msg (defaultSuccessMsg isFlagged)⟩
            flaggingItemId := none }, true⟩
      | .notOk msg =>
        ⟨{ s with
            actionFeedback := some ⟨.error, jsOrStr msg genericFlagFailMsg⟩
            flaggingItemId := none }, true⟩
      | .transportError isAxios dataMsg errMsg =>
        let message :=
          if isAxios then jsOrStr dataMsg (jsOrStr (some errMsg) genericFlagFailMsg)
          else genericFlagFailMsg
        ⟨{ s with
            actionFeedback := some ⟨.error, message⟩
            flaggingItemId := none }, true⟩

/-! ### Allocation-instrumented snapshot rewrite

To talk about "reused by reference" versus "reallocated", the snapshot
rewrite of `handleToggleFlag` is replayed over structures carrying an
explicit allocation address.  Each JavaScript object-spread `{ ... }`
allocates a fresh object, so the embedded rewrite draws a fresh address
from a counter at exactly those points; a value returned without a spread
keeps its address.  "Reused by reference" is then address (and value)
preservation, and "reallocated" is carrying an address outside the old
address set of the old snapshot. -/

/-- A `FoodItem` with an allocation address (only the fields the rewrite
touches are kept). -/
structure AFoodItem where
  addr : Nat
  id : String
  isFlagged : Option Bool
deriving DecidableEq, Repr

/-- A `Station` with an allocation address. -/
structure AStation where
  addr : Nat
  name : String
  items : List AFoodItem
deriving DecidableEq, Repr

/-- A `Meal` with an allocation address. -/
structure AMeal where
  addr : Nat
  name : String
  stations : List AStation
deriving DecidableEq, Repr

/-- A `MenuData` snapshot with an allocation address. -/
structure AMenu where
  addr : Nat
  date : String
  activeMeal : Option String
  meals : List AMeal
deriving DecidableEq, Repr

/-- Map threading an allocation counter through an element-wise function. -/
def mapAlloc (f : Nat → α → Nat × α) : Nat → List α → Nat × List α
  | c, [] => (c, [])
  | c, x :: xs =>
    let r := f c x
    let rs := mapAlloc f r.1 xs
    (rs.1, r.2 :: rs.2)

/-- Rewrite `menuItem.id === item.id ? { ...menuItem, isFlagged } : menuItem` with
allocation: the spread allocates, the else branch reuses the reference. -/
def rewriteItemA (targetId : String) (b : Bool) (c : Nat) (it : AFoodItem) :
    Nat × AFoodItem :=
  if it.id == targetId then (c + 1, { it with addr := c, isFlagged := some b })
  else (c, it)

/-- Rewrite `{ ...station, items: station.items.map(...) }` with allocation: every
station of the matching meal is spread, hence freshly allocated. -/
def rewriteStationA (targetId : String) (b : Bool) (c : Nat) (st : AStation) :
    Nat × AStation :=
  let r := mapAlloc (rewriteItemA targetId b) c st.items
  (r.1 + 1, { st with addr := r.1, items := r.2 })

/-- Rewrite `meal.name !== mealName ? meal : { ...meal, stations: ... }` with
allocation: a non-matching meal is returned by reference. -/
def rewriteMealA (mealName targetId : String) (b : Bool) (c : Nat)
    (m : AMeal) : Nat × AMeal :=
  if m.name != mealName then (c, m)
  else
    let r := mapAlloc (rewriteStationA targetId b) c m.stations
    (r.1 + 1, { m with addr := r.1, stations := r.2 })

/-- Rewrite `{ ...prev, meals: prev.meals.map(...) }` with allocation. -/
def rewriteMenuA (mealName targetId : String) (b : Bool) (c : Nat)
    (menu : AMenu) : Nat × AMenu :=
  let r := mapAlloc (rewriteMealA mealName targetId b) c menu.meals
  (r.1 + 1, { menu with addr := r.1, meals := r.2 })

/-- All allocation addresses occurring in a station. -/
def stationAddrs (st : AStation) : List Nat :=
  st.addr :: st.items.map AFoodItem.addr

/-- All allocation addresses occurring in a meal. -/
def mealAddrs (m : AMeal) : List Nat :=
  m.addr :: m.stations.flatMap stationAddrs

/-- All allocation addresses occurring in a snapshot. -/
def menuAddrs (menu : AMenu) : List Nat :=
  menu.addr :: menu.meals.flatMap mealAddrs

/-- Default placeholder used only for out-of-range `getD` in specs (never
reached, since the specs bound the index by the list length). -/
def dItem : AFoodItem := ⟨0, "", none⟩

/-- Default placeholder station. -/
def dStation : AStation := ⟨0, "", []⟩

/-- Default placeholder meal. -/
def dMeal : AMeal := ⟨0, "", []⟩

/-- Per-item frame spec of the rewrite: an item whose id differs is reused
by reference (value and address unchanged); the matching item is
reallocated with the authoritative flag. -/
def ItemSpec (oldAddrs : List Nat) (targetId : String) (b : Bool)
    (it it' : AFoodItem) : Prop :=
  (it.id ≠ targetId → it' = it) ∧
  (it.id = targetId →
    it'.id = it.id ∧ it'.isFlagged = some b ∧ it'.addr ∉ oldAddrs)

/-- Per-station frame spec of the rewrite inside the matching meal: the
station object is always reallocated, its name is kept, and its items
follow `ItemSpec` position-wise. -/
def StationSpec (oldAddrs : List Nat) (targetId : String) (b : Bool)
    (st st' : AStation) : Prop :=
  st'.name = st.name ∧ st'.addr ∉ oldAddrs ∧
  st'.items.length = st.items.length ∧
  ∀ k, k < st.items.length →
    ItemSpec oldAddrs targetId b (st.items.getD k dItem) (st'.items.getD k dItem)

/-- Per-meal frame spec of the rewrite: a meal whose name differs is reused
by reference; the matching meal is reallocated and every one of its
stations follows `StationSpec`. -/
def MealSpec (oldAddrs : List Nat) (mealName targetId : String) (b : Bool)
    (m m' : AMeal) : Prop :=
  (m.name ≠ mealName → m' = m) ∧
  (m.name = mealName →
    m'.name = m.name ∧ m'.addr ∉ oldAddrs ∧
    m'.stations.length = m.stations.length ∧
    ∀ j, j < m.stations.length →
      StationSpec oldAddrs targetId b (m.stations.getD j dStation)
        (m'.stations.getD j dStation))

/-- Whole-snapshot frame spec of the copy-on-write rewrite issued with a
fresh allocation counter `c0`. -/
def CowSpec (menu : AMenu) (mealName targetId : String) (b : Bool)
    (c0 : Nat) : Prop :=
  let menu' := (rewriteMenuA mealName targetId b c0 menu).2
  menu'.date = menu.date ∧
  menu'.activeMeal = menu.activeMeal ∧
  menu'.addr ∉ menuAddrs menu ∧
  menu'.meals.length = menu.meals.length ∧
  ∀ i, i < menu.meals.length →
    MealSpec (menuAddrs menu) mealName targetId b (menu.meals.getD i dMeal)
      (menu'.meals.getD i dMeal)

/-- Concrete item of station 1 (the station the toggle targets). -/
def exItemA : AFoodItem := ⟨0, "a", none⟩

/-- Concrete item of station 2 (untouched by the toggle). -/
def exItemB : AFoodItem := ⟨1, "b", none⟩

/-- Concrete station containing the toggled item. -/
def exStation1 : AStation := ⟨2, "Grill", [exItemA]⟩

/-- Concrete station of the same meal not containing the toggled item. -/
def exStation2 : AStation := ⟨3, "Salad", [exItemB]⟩

/-- Concrete matching meal with two stations. -/
def exMealA : AMeal := ⟨4, "Lunch", [exStation1, exStation2]⟩

/-- Concrete snapshot used to exercise the rewrite. -/
def exMenuA : AMenu := ⟨5, "2026-10-11", some "Lunch", [exMealA]⟩

/-! ### Concrete values used by the witnesses -/

/-- A vegetarian item carrying the `"Peanuts"` allergen. -/
def peanutItem : FoodItem :=
  { id := "p1", name := "Peanut Salad", description := "", ingredients := ""
    allergens := ["Peanuts"], isVegan := false, isVegetarian := true
    nutrition := ⟨.str "100", .str "5", .str "2", .str "10", .str "1", .str "140mg"⟩
    isFlagged := none }

/-- A sample nutrition record with string-encoded values. -/
def exNutrition : Nutrition :=
  ⟨.str "100", .str "5 g", .str "2", .str "10", .str "N/A", .str "140mg"⟩

/-- Sample item with id `"a"`. -/
def exFood1 : FoodItem :=
  ⟨"a", "Tacos", "", "", [], false, true, exNutrition, none⟩

/-- Sample item with id `"b"`. -/
def exFood2 : FoodItem :=
  ⟨"b", "Soup", "", "", ["Milk"], false, false, exNutrition, none⟩

/-- Sample station holding both items. -/
def exStationV : Station := ⟨"Grill", [exFood1, exFood2]⟩

/-- Sample meal named `"Lunch"`. -/
def exMealV : Meal := ⟨"Lunch", [exStationV]⟩

/-- Sample snapshot whose active meal is `"Lunch"`. -/
def exMenu : MenuData := ⟨"2026-10-11", [exMealV], some "Lunch"⟩

/-- Sample component state: the snapshot above and a selection list in which
item `"a"` appears twice (two servings). -/
def exState : AppState := ⟨some exMenu, [exFood1, exFood2, exFood1], none, none⟩

/-! ## Theorems -/

/-- The allergen guard of `matchesDietaryFilter` fires exactly when the
exclusion set meets the trimmed allergens of the item. -/
theorem allergenGuard_iff (af l : List String) :
    (decide (af.length > 0) && af.any (fun a => l.contains a)) = true ↔
      ∃ a ∈ af, a ∈ l := by
  simp [List.any_eq_true, List.elem_iff]
  intro a ha _
  exact List.length_pos.mpr (fun h => by simp [h] at ha)

/-- C1: the flag eligibility gate `canFlagMeal` returns true iff the
navigated date equals today (canonical `yyyy-MM-dd` equality), `activeMeal`
is non-empty, and the requested meal name equals `activeMeal` after trim and
lowercase; concrete denials: empty `activeMeal`, a non-today date, and
`"Breakfast "` versus `"lunch"`. -/
theorem canFlagMeal_gate_iff :
    (∀ (navigatedDate today mealName : String) (md : MenuData),
      canFlagMeal (some md) (isViewingToday navigatedDate today) mealName = true ↔
        navigatedDate = today ∧
        ∃ am, md.activeMeal = some am ∧ am ≠ "" ∧
          jsToLower (jsTrim mealName) = jsToLower (jsTrim am)) ∧
    canFlagMeal (some ⟨"2026-10-11", [], some ""⟩) true "Lunch" = false ∧
    canFlagMeal (some ⟨"2026-10-11", [], none⟩) true "Lunch" = false ∧
    canFlagMeal (some ⟨"2026-10-11", [], some "Lunch"⟩) false "Lunch" = false ∧
    canFlagMeal (some ⟨"2026-10-11", [], some "lunch"⟩) true "Breakfast " = false := by
  refine ⟨?_, by decide, by decide, by decide, by decide⟩
  intro navigatedDate today mealName md
  unfold canFlagMeal isViewingToday
  cases ham : md.activeMeal with
  | none => simp [ham]
  | some am =>
    by_cases he : am = ""
    · subst he; simp [ham]
    · by_cases hd : navigatedDate = today
      · subst hd
        simp [ham, he]
      · simp [ham, he, hd]

/-- C4: `matchesDietaryFilter` rejects on allergen intersection first
(overriding any tag match), accepts everything when no dietary tag is
active, and otherwise accepts iff the item matches at least one active tag
(OR, not AND); concretely, a vegetarian item with allergen `"Peanuts"` is
rejected when `"Peanuts"` is excluded and the vegetarian filter is active. -/
theorem matchesDietaryFilter_order_spec :
    (∀ (df : DietaryFilters) (af : List String) (item : FoodItem),
      matchesDietaryFilter df af item = true ↔
        (¬ ∃ a ∈ af, a ∈ item.allergens.map jsTrim) ∧
        ((df.vegetarian = false ∧ df.vegan = false) ∨
          (df.vegetarian = true ∧ item.isVegetarian = true) ∨
          (df.vegan = true ∧ item.isVegan = true))) ∧
    matchesDietaryFilter ⟨true, false⟩ ["Peanuts"] peanutItem = false ∧
    peanutItem.isVegetarian = true ∧
    peanutItem.allergens = ["Peanuts"] := by
  refine ⟨?_, by decide, by decide, by decide⟩
  intro df af item
  rcases df with ⟨veg, vgn⟩
  unfold matchesDietaryFilter DietaryFilters.size
  cases hg : (decide (af.length > 0) && af.any fun a => (item.allergens.map jsTrim).contains a) with
  | true =>
    have hex := (allergenGuard_iff af (item.allergens.map jsTrim)).mp hg
    simp [hg]
    intro h
    obtain ⟨a, ha, hb⟩ := hex
    obtain ⟨y, hy, rfl⟩ := List.mem_map.mp hb
    exact absurd rfl (h _ ha _ hy)
  | false =>
    have hna : ¬ ∃ a ∈ af, a ∈ item.allergens.map jsTrim := by
      intro h
      have hgt := (allergenGuard_iff af (item.allergens.map jsTrim)).mpr h
      have hft : (false : Bool) = true := hg ▸ hgt
      exact absurd hft (by decide)
    have hna' : ∀ x ∈ af, ∀ y ∈ item.allergens, ¬ jsTrim y = x := by
      simpa using hna
    cases veg <;> cases vgn <;> simp [hg] <;> intros <;> solve_by_elim

/-- C5: `parseNutritionValue` returns numbers as-is, maps the literal
`"N/A"` to zero, strips every character that is not a digit or decimal
point from any other string before parsing (so only the stripped content
matters), and returns zero on parse failure; concretely
`parse("N/A") = 0`, `parse("140mg") = 140`, `parse(250) = 250`,
`parse("") = 0`, `parse("12.5 g") = 12.5` and `parse("abc") = 0`. -/
theorem parseNutritionValue_rules :
    (∀ q : ℚ, parseNutritionValue (.num q) = q) ∧
    parseNutritionValue (.str "N/A") = 0 ∧
    parseNutritionValue (.str "140mg") = 140 ∧
    parseNutritionValue (.num 250) = 250 ∧
    parseNutritionValue (.str "") = 0 ∧
    parseNutritionValue (.str "12.5 g") = 25 / 2 ∧
    parseNutritionValue (.str "abc") = 0 ∧
    (∀ s : String, s ≠ "N/A" →
      parseNutritionValue (.str s) =
        parseNutritionValue (.str ⟨s.data.filter keepChar⟩)) := by
  refine ⟨fun q => rfl, by decide, ?_, rfl, ?_, ?_, ?_, ?_⟩
  · have h : parseFloatParts ("140mg".data.filter keepChar) = some (140, 0, 0) := by
      decide
    show jsNumOrZero (parseFloatCleaned ("140mg".data.filter keepChar)) = 140
    rw [parseFloatCleaned, h]
    norm_num [partsToRat, jsNumOrZero]
  · have h : parseFloatParts ("".data.filter keepChar) = none := by decide
    show jsNumOrZero (parseFloatCleaned ("".data.filter keepChar)) = 0
    rw [parseFloatCleaned, h]
    norm_num [partsToRat, jsNumOrZero]
  · have h : parseFloatParts ("12.5 g".data.filter keepChar) = some (12, 5, 1) := by
      decide
    show jsNumOrZero (parseFloatCleaned ("12.5 g".data.filter keepChar)) = 25 / 2
    rw [parseFloatCleaned, h]
    norm_num [partsToRat, jsNumOrZero]
  · have h : parseFloatParts ("abc".data.filter keepChar) = none := by decide
    show jsNumOrZero (parseFloatCleaned ("abc".data.filter keepChar)) = 0
    rw [parseFloatCleaned, h]
    norm_num [partsToRat, jsNumOrZero]
  · intro s hs
    by_cases ht : (⟨s.data.filter keepChar⟩ : String) = "N/A"
    · exfalso
      have hdat : s.data.filter keepChar = "N/A".data := congrArg String.data ht
      have hN : 'N' ∈ s.data.filter keepChar := by
        rw [hdat]; decide
      have hk := (List.mem_filter.mp hN).2
      exact absurd hk (by decide)
    · show (if s = "N/A" then (0 : ℚ)
          else jsNumOrZero (parseFloatCleaned (s.data.filter keepChar))) =
        (if (⟨s.data.filter keepChar⟩ : String) = "N/A" then (0 : ℚ)
          else jsNumOrZero (parseFloatCleaned
            ((⟨s.data.filter keepChar⟩ : String).data.filter keepChar)))
      rw [if_neg hs, if_neg ht]
      have hidem : (s.data.filter keepChar).filter keepChar = s.data.filter keepChar :=
        List.filter_eq_self.mpr (fun a ha => (List.mem_filter.mp ha).2)
      have hdat2 : (⟨s.data.filter keepChar⟩ : String).data = s.data.filter keepChar := rfl
      rw [hdat2, hidem]

/-- The witness instantiates the strip-invariance conjunct of the parser
rules at the concrete input `"140mg"`. -/
theorem parseNutritionValue_rules_witness :
    ("140mg" : String) ≠ "N/A" ∧
    parseNutritionValue (.str "140mg") =
      parseNutritionValue (.str ⟨"140mg".data.filter keepChar⟩) :=
  ⟨by decide, parseNutritionValue_rules.2.2.2.2.2.2.2 "140mg" (by decide)⟩

/-- C6: `calculateTotals` is invariant under permutation of the selection
list — reordering never changes any of the six summed nutrient totals. -/
theorem calculateTotals_perm_invariant (l₁ l₂ : List FoodItem)
    (h : l₁.Perm l₂) : calculateTotals l₁ = calculateTotals l₂ := by
  unfold calculateTotals
  refine h.foldl_eq' (fun x _ y _ z => ?_) _
  unfold totalsStep
  ext <;> dsimp <;> ring

/-- The witness applies permutation invariance to a concrete two-element
swap. -/
theorem calculateTotals_perm_invariant_witness :
    ([exFood1, exFood2].Perm [exFood2, exFood1]) ∧
    calculateTotals [exFood1, exFood2] = calculateTotals [exFood2, exFood1] :=
  ⟨List.Perm.swap exFood2 exFood1 [],
    calculateTotals_perm_invariant _ _ (List.Perm.swap exFood2 exFood1 [])⟩

/-- C7: whenever the selection list becomes empty through a positional
removal or a clear, the persistence effects delete the selections key
(never store an empty list), so a subsequent hydration observes key absence
and yields an empty store. -/
theorem emptySelection_deletes_key :
    (∀ (items : List FoodItem) (index : Nat) (isOpen : Bool)
        (storage : Option (List FoodItem)),
      (handleRemoveFromCalculator items index).length = 0 →
        selectionsChangedEffects isOpen (handleRemoveFromCalculator items index)
          storage = none ∧
        loadSelectedItems (selectionsChangedEffects isOpen
          (handleRemoveFromCalculator items index) storage) = []) ∧
    (∀ (isOpen : Bool) (storage : Option (List FoodItem)),
      selectionsChangedEffects isOpen handleClearCalculator storage = none ∧
      loadSelectedItems (selectionsChangedEffects isOpen handleClearCalculator
        storage) = []) ∧
    loadSelectedItems none = [] := by
  refine ⟨?_, ?_, rfl⟩
  · intro items index isOpen storage h
    have hnone : selectionsChangedEffects isOpen
        (handleRemoveFromCalculator items index) storage = none := by
      unfold selectionsChangedEffects
      simp [h, clearSelections]
    exact ⟨hnone, by rw [hnone]; rfl⟩
  · intro isOpen storage
    exact ⟨rfl, rfl⟩

/-- The witness removes the only entry of a one-element selection list and
watches the key disappear. -/
theorem emptySelection_deletes_key_witness :
    (handleRemoveFromCalculator [exFood1] 0).length = 0 ∧
    selectionsChangedEffects false (handleRemoveFromCalculator [exFood1] 0)
      (some [exFood1]) = none ∧
    loadSelectedItems (selectionsChangedEffects false
      (handleRemoveFromCalculator [exFood1] 0) (some [exFood1])) = [] :=
  ⟨by decide,
    (emptySelection_deletes_key.1 [exFood1] 0 false (some [exFood1]) (by decide)).1,
    (emptySelection_deletes_key.1 [exFood1] 0 false (some [exFood1]) (by decide)).2⟩

/-- C2: when the collaborator reports the resulting state as flagged, the
cascade removes every selection entry whose id equals the id of the toggled item
(duplicates included) and preserves the relative order and multiplicity of
all other entries. -/
theorem flagCascade_removes_all (viewingToday : Bool) (s : AppState)
    (menu : MenuData) (mealName : String) (item : FoodItem) (msg : Option String)
    (hmenu : s.menuData = some menu)
    (hgate : canFlagMeal (some menu) viewingToday mealName = true) :
    let r := handleToggleFlag viewingToday s mealName item (.ok true msg)
    r.state.selectedItems
        = s.selectedItems.filter (fun sel => !(sel.id == item.id)) ∧
    r.state.selectedItems.Sublist s.selectedItems ∧
    (∀ e ∈ r.state.selectedItems, e.id ≠ item.id) ∧
    (∀ e : FoodItem, e.id ≠ item.id →
      r.state.selectedItems.count e = s.selectedItems.count e) := by
  have hr : (handleToggleFlag viewingToday s mealName item
      (.ok true msg)).state.selectedItems
      = s.selectedItems.filter (fun sel => !(sel.id == item.id)) := by
    unfold handleToggleFlag
    rw [hmenu]
    simp [hgate]
  refine ⟨hr, ?_, ?_, ?_⟩
  · rw [hr]; exact List.filter_sublist _
  · intro e he
    rw [hr] at he
    simpa using (List.mem_filter.mp he).2
  · intro e hne
    rw [hr]
    exact List.count_filter (by simpa using hne)

/-- The witness toggles item `"a"` (selected twice) in a state where the
gate allows flagging and checks the duplicate-removing cascade. -/
theorem flagCascade_removes_all_witness :
    exState.menuData = some exMenu ∧
    canFlagMeal (some exMenu) true "Lunch" = true ∧
    (handleToggleFlag true exState "Lunch" exFood1 (.ok true none)).state.selectedItems
      = exState.selectedItems.filter (fun sel => !(sel.id == exFood1.id)) :=
  ⟨rfl, by decide,
    (flagCascade_removes_all true exState exMenu "Lunch" exFood1 none rfl
      (by decide)).1⟩

/-- C8: when the collaborator call fails (non-success response or transport
error) the snapshot and selection list are unchanged, the updating marker is
cleared, and the banner carries the error text of the collaborator when present,
else the generic failure message. -/
theorem flagFailure_frame (viewingToday : Bool) (s : AppState) (menu : MenuData)
    (mealName : String) (item : FoodItem)
    (hmenu : s.menuData = some menu)
    (hgate : canFlagMeal (some menu) viewingToday mealName = true) :
    (∀ msg : Option String,
      let r := handleToggleFlag viewingToday s mealName item (.notOk msg)
      r.requestSent = true ∧
      r.state.menuData = s.menuData ∧
      r.state.selectedItems = s.selectedItems ∧
      r.state.flaggingItemId = none ∧
      r.state.actionFeedback = some ⟨.error, jsOrStr msg genericFlagFailMsg⟩) ∧
    (∀ (isAxios : Bool) (dataMsg : Option String) (errMsg : String),
      let r := handleToggleFlag viewingToday s mealName item
        (.transportError isAxios dataMsg errMsg)
      r.requestSent = true ∧
      r.state.menuData = s.menuData ∧
      r.state.selectedItems = s.selectedItems ∧
      r.state.flaggingItemId = none ∧
      r.state.actionFeedback = some ⟨.error,
        if isAxios then jsOrStr dataMsg (jsOrStr (some errMsg) genericFlagFailMsg)
        else genericFlagFailMsg⟩) := by
  constructor
  · intro msg
    unfold handleToggleFlag
    rw [hmenu]
    simp [hgate]
  · intro isAxios dataMsg errMsg
    unfold handleToggleFlag
    rw [hmenu]
    simp [hgate]

/-- The witness exercises the failure path with a non-success response
carrying no message. -/
theorem flagFailure_frame_witness :
    exState.menuData = some exMenu ∧
    canFlagMeal (some exMenu) true "Lunch" = true ∧
    (handleToggleFlag true exState "Lunch" exFood1 (.notOk none)).state.menuData
      = exState.menuData :=
  ⟨rfl, by decide,
    ((flagFailure_frame true exState exMenu "Lunch" exFood1 rfl (by decide)).1
      none).2.1⟩

/-- C9: when the gate denies, no request is sent, a failure banner is
produced synchronously naming the required meal period when `activeMeal` is
truthy (else the generic unavailable message), and snapshot, selection list
and updating marker are all unchanged. -/
theorem flagDenied_local (viewingToday : Bool) (s : AppState) (menu : MenuData)
    (mealName : String) (item : FoodItem) (outcome : CollabOutcome)
    (hmenu : s.menuData = some menu)
    (hgate : canFlagMeal (some menu) viewingToday mealName = false) :
    let r := handleToggleFlag viewingToday s mealName item outcome
    r.requestSent = false ∧
    r.state.menuData = s.menuData ∧
    r.state.selectedItems = s.selectedItems ∧
    r.state.flaggingItemId = s.flaggingItemId ∧
    r.state.actionFeedback = some ⟨.error, ineligibleMessage menu.activeMeal⟩ ∧
    (∀ am : String, menu.activeMeal = some am → am ≠ "" →
      ineligibleMessage menu.activeMeal =
        "Flagging is only available during the " ++ am ++ " period.") ∧
    ((menu.activeMeal = none ∨ menu.activeMeal = some "") →
      ineligibleMessage menu.activeMeal =
        "Flagging is only available during the active meal period for today.") := by
  have hmain : handleToggleFlag viewingToday s mealName item outcome =
      ⟨{ s with
          actionFeedback := some ⟨.error, ineligibleMessage menu.activeMeal⟩ },
        false⟩ := by
    unfold handleToggleFlag
    rw [hmenu]
    simp [hgate]
  refine ⟨by rw [hmain], by rw [hmain], by rw [hmain], by rw [hmain],
    by rw [hmain], ?_, ?_⟩
  · intro am ham hne
    rw [ham]
    unfold ineligibleMessage
    simp [hne]
  · rintro (h | h) <;> rw [h] <;> rfl

/-- The witness attempts to flag during a non-active meal (`"Dinner"` while
`"Lunch"` is active): denied locally without a request. -/
theorem flagDenied_local_witness :
    exState.menuData = some exMenu ∧
    canFlagMeal (some exMenu) true "Dinner" = false ∧
    (handleToggleFlag true exState "Dinner" exFood1 (.ok true none)).requestSent
      = false :=
  ⟨rfl, by decide,
    (flagDenied_local true exState exMenu "Dinner" exFood1 (.ok true none) rfl
      (by decide)).1⟩

/-- C10: a successful toggle whose authoritative resulting state is
unflagged leaves the selection list exactly unchanged — the removal cascade
runs only when the result is flagged. -/
theorem unflag_preserves_selection (viewingToday : Bool) (s : AppState)
    (menu : MenuData) (mealName : String) (item : FoodItem) (msg : Option String)
    (hmenu : s.menuData = some menu)
    (hgate : canFlagMeal (some menu) viewingToday mealName = true) :
    (handleToggleFlag viewingToday s mealName item (.ok false msg)).state.selectedItems
      = s.selectedItems := by
  unfold handleToggleFlag
  rw [hmenu]
  simp [hgate]

/-- The witness unflags item `"a"` and observes the untouched selection
list. -/
theorem unflag_preserves_selection_witness :
    exState.menuData = some exMenu ∧
    canFlagMeal (some exMenu) true "Lunch" = true ∧
    (handleToggleFlag true exState "Lunch" exFood1 (.ok false none)).state.selectedItems
      = exState.selectedItems :=
  ⟨rfl, by decide,
    unflag_preserves_selection true exState exMenu "Lunch" exFood1 none rfl
      (by decide)⟩

/-- C3 counterexample: inside the matching meal, a station that does NOT
contain the toggled item is still reallocated (fresh address), with its
items reused unchanged — refuting that only the station containing the
matching item is reallocated. -/
theorem cow_offpath_station_reallocated :
    ((((rewriteMenuA "Lunch" "a" true 10 exMenuA).2.meals.getD 0 dMeal).stations.getD
        1 dStation).items =
      exStation2.items) ∧
    ((((rewriteMenuA "Lunch" "a" true 10 exMenuA).2.meals.getD 0 dMeal).stations.getD
        1 dStation).name =
      exStation2.name) ∧
    ((((rewriteMenuA "Lunch" "a" true 10 exMenuA).2.meals.getD 0 dMeal).stations.getD
        1 dStation).addr ≠
      exStation2.addr) ∧
    (exMealA.name = "Lunch" ∧ exMealA.stations.getD 1 dStation = exStation2 ∧
      ∀ it ∈ exStation2.items, it.id ≠ "a") := by
  decide

/-- Lemma: `mapAlloc` preserves list length. -/
theorem mapAlloc_length (f : Nat → α → Nat × α) (c : Nat) (xs : List α) :
    (mapAlloc f c xs).2.length = xs.length := by
  induction xs generalizing c with
  | nil => rfl
  | cons x xs ih => simp [mapAlloc, ih]

/-- Lemma: `mapAlloc` never decreases the allocation counter when the element
function does not. -/
theorem mapAlloc_counter_le (f : Nat → α → Nat × α)
    (hf : ∀ c x, c ≤ (f c x).1) (c : Nat) (xs : List α) :
    c ≤ (mapAlloc f c xs).1 := by
  induction xs generalizing c with
  | nil => exact Nat.le_refl c
  | cons x xs ih => exact Nat.le_trans (hf c x) (ih (f c x).1)

/-- Positionally, `mapAlloc f c xs` applies `f` at some counter at least
`c`. -/
theorem mapAlloc_getD (f : Nat → α → Nat × α)
    (hf : ∀ c x, c ≤ (f c x).1) (c : Nat) (xs : List α) (d : α) :
    ∀ i, i < xs.length →
      ∃ c', c ≤ c' ∧
        (mapAlloc f c xs).2.getD i d = (f c' (xs.getD i d)).2 := by
  induction xs generalizing c with
  | nil => intro i hi; simp at hi
  | cons x xs ih =>
    intro i hi
    cases i with
    | zero => exact ⟨c, Nat.le_refl c, by simp [mapAlloc]⟩
    | succ n =>
      obtain ⟨c', hc', heq⟩ := ih (f c x).1 n (by simpa using hi)
      exact ⟨c', Nat.le_trans (hf c x) hc', by simpa [mapAlloc] using heq⟩

/-- The item rewrite never decreases the counter. -/
theorem rewriteItemA_mono (t : String) (b : Bool) (c : Nat) (it : AFoodItem) :
    c ≤ (rewriteItemA t b c it).1 := by
  unfold rewriteItemA
  split
  · exact Nat.le_succ c
  · exact Nat.le_refl c

/-- The station rewrite never decreases the counter. -/
theorem rewriteStationA_mono (t : String) (b : Bool) (c : Nat) (st : AStation) :
    c ≤ (rewriteStationA t b c st).1 := by
  unfold rewriteStationA
  exact Nat.le_trans
    (mapAlloc_counter_le _ (rewriteItemA_mono t b) c st.items) (Nat.le_succ _)

/-- The meal rewrite never decreases the counter. -/
theorem rewriteMealA_mono (mealName t : String) (b : Bool) (c : Nat)
    (m : AMeal) : c ≤ (rewriteMealA mealName t b c m).1 := by
  unfold rewriteMealA
  split
  · exact Nat.le_refl c
  · exact Nat.le_trans
      (mapAlloc_counter_le _ (rewriteStationA_mono t b) c m.stations)
      (Nat.le_succ _)

/-- An address at least `c0` is fresh with respect to addresses all below
`c0`. -/
theorem fresh_not_mem (old : List Nat) (c0 a : Nat)
    (hold : ∀ x ∈ old, x < c0) (ha : c0 ≤ a) : a ∉ old := by
  intro hmem
  exact absurd (hold a hmem) (Nat.not_lt.mpr ha)

/-- The item rewrite satisfies the per-item frame spec whenever it runs at a
fresh counter. -/
theorem rewriteItemA_spec (old : List Nat) (t : String) (b : Bool)
    (c0 c : Nat) (hold : ∀ x ∈ old, x < c0) (hc : c0 ≤ c) (it : AFoodItem) :
    ItemSpec old t b it (rewriteItemA t b c it).2 := by
  unfold ItemSpec rewriteItemA
  by_cases h : it.id = t
  · simp [h]
    exact fresh_not_mem old c0 c hold hc
  · simp [h]

/-- The station rewrite satisfies the per-station frame spec whenever it
runs at a fresh counter. -/
theorem rewriteStationA_spec (old : List Nat) (t : String) (b : Bool)
    (c0 c : Nat) (hold : ∀ x ∈ old, x < c0) (hc : c0 ≤ c) (st : AStation) :
    StationSpec old t b st (rewriteStationA t b c st).2 := by
  unfold StationSpec rewriteStationA
  refine ⟨rfl, ?_, ?_, ?_⟩
  · exact fresh_not_mem old c0 _ hold
      (Nat.le_trans hc (mapAlloc_counter_le _ (rewriteItemA_mono t b) c st.items))
  · exact mapAlloc_length _ c st.items
  · intro k hk
    obtain ⟨c', hc', heq⟩ :=
      mapAlloc_getD _ (rewriteItemA_mono t b) c st.items dItem k hk
    dsimp only
    rw [heq]
    exact rewriteItemA_spec old t b c0 c' hold (Nat.le_trans hc hc') _

/-- The meal rewrite satisfies the per-meal frame spec whenever it runs at a
fresh counter. -/
theorem rewriteMealA_spec (old : List Nat) (mealName t : String) (b : Bool)
    (c0 c : Nat) (hold : ∀ x ∈ old, x < c0) (hc : c0 ≤ c) (m : AMeal) :
    MealSpec old mealName t b m (rewriteMealA mealName t b c m).2 := by
  by_cases h : m.name = mealName
  · have hred : (rewriteMealA mealName t b c m).2 =
        { m with
            addr := (mapAlloc (rewriteStationA t b) c m.stations).1
            stations := (mapAlloc (rewriteStationA t b) c m.stations).2 } := by
      unfold rewriteMealA
      simp [h]
    refine ⟨fun hne => absurd h hne, fun _ => ?_⟩
    rw [hred]
    refine ⟨rfl, ?_, ?_, ?_⟩
    · exact fresh_not_mem old c0 _ hold
        (Nat.le_trans hc
          (mapAlloc_counter_le _ (rewriteStationA_mono t b) c m.stations))
    · exact mapAlloc_length _ c m.stations
    · intro j hj
      obtain ⟨c', hc', heq⟩ :=
        mapAlloc_getD _ (rewriteStationA_mono t b) c m.stations dStation j hj
      dsimp only
      rw [heq]
      exact rewriteStationA_spec old t b c0 c' hold (Nat.le_trans hc hc') _
  · have hred : (rewriteMealA mealName t b c m).2 = m := by
      unfold rewriteMealA
      simp [h]
    exact ⟨fun _ => hred, fun hm => absurd hm h⟩

/-- C3 amended: on a successful flag toggle the rewrite reallocates the
snapshot root, the matching meal, and EVERY station object of the matching
meal; within those stations exactly the items whose id equals the toggled
id are reallocated (receiving the authoritative flag), while every meal
other than the matching meal and every item with a different id are reused
by reference. -/
theorem cow_rewrite_amended (menu : AMenu) (mealName targetId : String)
    (b : Bool) (c0 : Nat) (hold : ∀ x ∈ menuAddrs menu, x < c0) :
    CowSpec menu mealName targetId b c0 := by
  unfold CowSpec rewriteMenuA
  refine ⟨rfl, rfl, ?_, ?_, ?_⟩
  · exact fresh_not_mem _ c0 _ hold
      (mapAlloc_counter_le _ (rewriteMealA_mono mealName targetId b) c0
        menu.meals)
  · exact mapAlloc_length _ c0 menu.meals
  · intro i hi
    obtain ⟨c', hc', heq⟩ :=
      mapAlloc_getD _ (rewriteMealA_mono mealName targetId b) c0 menu.meals
        dMeal i hi
    dsimp only
    rw [heq]
    exact rewriteMealA_spec _ mealName targetId b c0 c' hold hc' _

/-- The witness runs the amended copy-on-write spec on the concrete
two-station snapshot with the fresh counter `10`. -/
theorem cow_rewrite_amended_witness :
    (∀ x ∈ menuAddrs exMenuA, x < 10) ∧
    CowSpec exMenuA "Lunch" "a" true 10 :=
  ⟨by decide, cow_rewrite_amended exMenuA "Lunch" "a" true 10 (by decide)⟩
